import Mathlib

/-!
Verification of the Discord-File-Dumper repository (src/main.py,
src/dump_messages.py, src/dump_to_cdl.py) against its natural-language
specification.  The Python code is shallowly embedded: JSON response bodies
become an inductive Json type with Python dictionary-access semantics
(dict.get on a non-dict raises AttributeError, and so on), the SQLite store
becomes lists of row records with insert-or-update semantics, and the
paginated search walk becomes a recursive function over a script of
responses that records the request trace (issue time and cursor sent),
the store, and the first uncaught exception.
-/

set_option autoImplicit false

namespace DiscordDumper

/-- Python runtime exceptions that the embedded code can raise, plus the
sqlite3 OperationalError raised when a statement fails to prepare. -/
inductive PyErr where
  | attributeError
  | typeError
  | valueError
  | indexError
  | operationalError (msg : String)
  deriving DecidableEq, Repr

/-- A JSON value as decoded by response.json(): Python None, bool, number
(modelled as a rational), string, list, or dict (association list in
insertion order). -/
inductive Json where
  | null
  | bool (b : Bool)
  | num (q : ℚ)
  | str (s : String)
  | arr (elems : List Json)
  | obj (fields : List (String × Json))

/-- Python dict.get(key, default): returns the stored value or the default
on a dict, and raises AttributeError on any non-dict value. -/
def Json.get (j : Json) (k : String) (default : Json) : Except PyErr Json :=
  match j with
  | .obj fields =>
    match fields.lookup k with
    | some v => .ok v
    | none => .ok default
  | _ => .error .attributeError

/-- Python truthiness of a JSON value: None, False, 0, empty string, empty
list and empty dict are falsy, everything else is truthy. -/
def pyTruthy : Json → Bool
  | .null => false
  | .bool b => b
  | .num q => decide (q ≠ 0)
  | .str s => !s.isEmpty
  | .arr elems => !elems.isEmpty
  | .obj fields => !fields.isEmpty

/-- Python iteration (for x in v): lists yield their elements, strings yield
one-character strings, dicts yield their keys; other values raise TypeError. -/
def pyIter : Json → Except PyErr (List Json)
  | .arr elems => .ok elems
  | .str s => .ok (s.data.map fun c => .str (String.mk [c]))
  | .obj fields => .ok (fields.map fun f => .str f.1)
  | _ => .error .typeError

/-- Python subscript v[0]: first element of a list (IndexError when empty);
any non-list value raises (TypeError for the uses in this code base). -/
def pySub0 : Json → Except PyErr Json
  | .arr (x :: _) => .ok x
  | .arr [] => .error .indexError
  | _ => .error .typeError

/-- Python numeric coercion for arithmetic (retry_after * 1.2): numbers are
used as-is, booleans count as 0 or 1, anything else raises TypeError. -/
def pyToNum : Json → Except PyErr ℚ
  | .num q => .ok q
  | .bool b => .ok (if b then 1 else 0)
  | _ => .error .typeError

/-- Whether the list of characters needle occurs at the head of hay. -/
def subAt : List Char → List Char → Bool
  | [], _ => true
  | _ :: _, [] => false
  | a :: as, b :: bs => a == b && subAt as bs

/-- Whether needle occurs anywhere inside hay (list-of-characters form). -/
def subIn (needle : List Char) : List Char → Bool
  | [] => needle.isEmpty
  | b :: bs => subAt needle (b :: bs) || subIn needle (bs)

/-- Python substring test (needle in hay) on strings. -/
def strIn (needle hay : String) : Bool :=
  subIn needle.data hay.data

/-- Python membership test (needle in v) as used on the message field of a
response body: a substring test when the value is a string, TypeError on
any non-string value. -/
def pyInStr (needle : String) (v : Json) : Except PyErr Bool :=
  match v with
  | .str s => .ok (strIn needle s)
  | _ => .error .typeError

/-- Structural equality of JSON values, as SQLite compares bound key values.
Used by the store model to detect primary-key conflicts. -/
def Json.beq : Json → Json → Bool
  | .null, .null => true
  | .bool a, .bool b => a == b
  | .num a, .num b => a == b
  | .str a, .str b => a == b
  | .arr as, .arr bs => beqList as bs
  | .obj as, .obj bs => beqObj as bs
  | _, _ => false
where
  beqList : List Json → List Json → Bool
    | [], [] => true
    | a :: as, b :: bs => Json.beq a b && beqList as bs
    | _, _ => false
  beqObj : List (String × Json) → List (String × Json) → Bool
    | [], [] => true
    | (k, v) :: as, (l, w) :: bs => k == l && Json.beq v w && beqObj as bs
    | _, _ => false

/-- Python == between a JSON value and an integer literal, as in the check
channel.get("type", -1) == 0: numbers compare numerically, booleans count
as 0 or 1, any other value is simply unequal (no exception). -/
def pyEqNum (v : Json) (q : ℚ) : Bool :=
  match v with
  | .num a => a == q
  | .bool b => (if b then (1 : ℚ) else 0) == q
  | _ => false

/-- Python str() of a JSON value as interpolated into an f-string.  Scalars
follow Python; container values are abbreviated (no claim inspects them). -/
def pyStr : Json → String
  | .null => "None"
  | .bool b => if b then "True" else "False"
  | .num q => toString q
  | .str s => s
  | .arr _ => "[...]"
  | .obj _ => "{...}"

/-- Outcome of one search response body, as the walk loop in
search_guild_media / search_dm_media distinguishes them: the body carries
the textual rate-limit marker, or a truthy messages page together with the
next cursor timestamp, or no results. -/
inductive SearchOutcome where
  | rateLimited (retryAfter : ℚ)
  | page (messages : Json) (cursor : Json)
  | exhausted

/-- Classification of a search response body, following the loop body of
search_guild_media line by line: first the rate-limit sentinel test on the
message field (with the retry_after coerced for the sleep arithmetic), then
tabs.media.messages with dict defaults, then truthiness of messages, and
only then the cursor timestamp.  Every dict access on a non-dict raises. -/
def classifyBody (data : Json) : Except PyErr SearchOutcome := do
  let msg ← data.get "message" (.str "")
  let rl ← pyInStr "rate limited" msg
  if rl then
    let ra ← data.get "retry_after" (.num 0)
    let q ← pyToNum ra
    pure (.rateLimited q)
  else
    let tabs ← data.get "tabs" (.obj [])
    let media ← tabs.get "media" (.obj [])
    let messages ← media.get "messages" (.arr [])
    if pyTruthy messages then
      let cur ← media.get "cursor" (.obj [])
      let ts ← cur.get "timestamp" .null
      pure (.page messages ts)
    else
      pure .exhausted

/-- An HTTP response to a search request: status code plus decoded body. -/
structure SearchResponse where
  status : ℕ
  body : Json

/-- The walk loop classifies a whole response.  It reads only response.json();
the status attribute of the response object is never consulted in
search_guild_media or search_dm_media. -/
def classifySearchResponse (r : SearchResponse) : Except PyErr SearchOutcome :=
  classifyBody r.body

namespace Main

/-- Row of the accounts table of main.py (id TEXT PRIMARY KEY, name TEXT). -/
structure AccountRow where
  id : Json
  name : Json

/-- Row of the users table of main.py (id TEXT PRIMARY KEY, name TEXT). -/
structure UserRow where
  id : Json
  name : Json

/-- Row of the guilds table of main.py
(id TEXT PRIMARY KEY, name TEXT, last_timestamp TEXT). -/
structure GuildRow where
  id : String
  name : String
  last_timestamp : Json

/-- Row of the channels table of main.py
(id, name, is_dm, is_nsfw, guild_id). -/
structure ChannelRow where
  id : Json
  name : Json
  is_dm : Json
  is_nsfw : Json
  guild_id : Json

/-- Row of the media table of main.py, columns in schema order. -/
structure MediaRow where
  file_id : Json
  url : Json
  filename : Json
  size : Json
  content_type : Json
  width : Json
  height : Json
  user_id : Json
  guild_id : Json
  channel_id : Json
  account_id : Json
  timestamp : Json
  search_timestamp : Json

/-- The SQLite database of main.py as in create_tables. -/
structure Store where
  accounts : List AccountRow
  users : List UserRow
  guilds : List GuildRow
  channels : List ChannelRow
  media : List MediaRow

/-- The empty database right after create_tables. -/
def Store.empty : Store := ⟨[], [], [], [], []⟩

/-- Insert-or-update on a primary key: SQLite keeps at most one row per key,
so the first (only) row with a conflicting key is rewritten by the
ON CONFLICT DO UPDATE action upd, and otherwise the new row is appended. -/
def upsertBy {α : Type} (keyEq : α → α → Bool) (upd : α → α → α) (row : α) :
    List α → List α
  | [] => [row]
  | r :: rs => if keyEq r row then upd r row :: rs else r :: upsertBy keyEq upd row rs

namespace Database

/-- main.py Database.insert_guild: upsert keyed on id, updating only name on
conflict; a fresh row has NULL last_timestamp. -/
def insert_guild (guildId name : String) (s : Store) : Store :=
  let row : GuildRow := ⟨guildId, name, .null⟩
  let upd : GuildRow → GuildRow → GuildRow := fun old new => { old with name := new.name }
  { s with guilds := upsertBy (fun a b => a.id == b.id) upd row s.guilds }

/-- Number of columns named by the main.py insert_user statement,
INSERT OR IGNORE INTO users (id, name) VALUES (?, ?, ?). -/
def insertUserColumns : ℕ := 2

/-- Number of value placeholders in that same statement. -/
def insertUserPlaceholders : ℕ := 3

/-- main.py Database.insert_user.  The statement lists 2 columns but 3 value
placeholders, so SQLite refuses to prepare it and sqlite3 raises
OperationalError; no row is ever written.  The channelId argument is unused
in the source as well. -/
def insert_user (userId username : Json) (channelId : Option Json) (s : Store) :
    Except PyErr Store :=
  if insertUserPlaceholders = insertUserColumns then
    let upd : UserRow → UserRow → UserRow := fun old new => { old with name := new.name }
    .ok { s with users := upsertBy (fun a b => Json.beq a.id b.id) upd ⟨userId, username⟩ s.users }
  else
    .error (.operationalError
      (toString insertUserPlaceholders ++ " values for "
        ++ toString insertUserColumns ++ " columns"))

/-- main.py Database.insert_channel: upsert keyed on id; on conflict name,
is_dm and is_nsfw are updated but guild_id is kept. -/
def insert_channel (channelId name guildId isNsfw isDm : Json) (s : Store) : Store :=
  let row : ChannelRow := ⟨channelId, name, isDm, isNsfw, guildId⟩
  let upd : ChannelRow → ChannelRow → ChannelRow := fun old new =>
    { old with name := new.name, is_dm := new.is_dm, is_nsfw := new.is_nsfw }
  { s with channels := upsertBy (fun a b => Json.beq a.id b.id) upd row s.channels }

/-- main.py Database.insert_scraping_account: upsert keyed on id, updating
name on conflict. -/
def insert_scraping_account (userId username : Json) (s : Store) : Store :=
  let upd : AccountRow → AccountRow → AccountRow := fun old new => { old with name := new.name }
  { s with accounts := upsertBy (fun a b => Json.beq a.id b.id) upd ⟨userId, username⟩ s.accounts }

/-- main.py Database.insert_media: upsert keyed on file_id; on conflict only
the url column is refreshed. -/
def insert_media (row : MediaRow) (s : Store) : Store :=
  let upd : MediaRow → MediaRow → MediaRow := fun old new => { old with url := new.url }
  { s with media := upsertBy (fun a b => Json.beq a.file_id b.file_id) upd row s.media }

/-- main.py Database.update_guild_timestamp:
UPDATE guilds SET last_timestamp = ? WHERE id = ?. -/
def update_guild_timestamp (guildId : String) (timestamp : Json) (s : Store) : Store :=
  { s with guilds := s.guilds.map fun g =>
      if g.id == guildId then { g with last_timestamp := timestamp } else g }

/-- main.py Database.get_guilds (get_dms false): all guild rows except the
reserved direct-message row. -/
def get_guilds (s : Store) : List GuildRow :=
  s.guilds.filter fun g => !(g.id == "@me")

/-- main.py Database.remove_guild: DELETE FROM guilds WHERE id = ?. -/
def remove_guild (guildId : String) (s : Store) : Store :=
  { s with guilds := s.guilds.filter fun g => !(g.id == guildId) }

/-- main.py Database.count_media: SELECT COUNT(*) FROM media. -/
def count_media (s : Store) : ℕ := s.media.length

end Database

/-- Fields read from one attachment (and its message) by the body of
the attachment loop of main.py process_message, in source order. -/
structure AttachmentFields where
  file_id : Json
  url : Json
  filename : Json
  size : Json
  content_type : Json
  width : Json
  height : Json
  user_id : Json
  username : Json
  channel_id : Json
  timestamp : Json

/-- Field extraction of the attachment loop body of main.py
process_message, with the dict.get defaults of the source. -/
def extractAttachmentFields (message att : Json) : Except PyErr AttachmentFields := do
  let fileId ← att.get "id" (.num 0)
  let url ← att.get "url" .null
  let fname ← att.get "filename" .null
  let size ← att.get "size" (.num 0)
  let ctype ← att.get "content_type" .null
  let w ← att.get "width" (.num 0)
  let h ← att.get "height" (.num 0)
  let author ← message.get "author" (.obj [])
  let uid ← author.get "id" .null
  let uname ← author.get "username" .null
  let cid ← message.get "channel_id" .null
  let ts ← message.get "timestamp" .null
  pure ⟨fileId, url, fname, size, ctype, w, h, uid, uname, cid, ts⟩

/-- The attachment loop of main.py process_message.  For each attachment
with a truthy url it inserts the media row, then calls insert_user, which
always raises (its SQL cannot be prepared), so the loop stops there with
the media row already committed; the later update_guild_timestamp and the
direct-message insert_channel are kept for faithfulness but are unreachable
through an attachment with a url. -/
def process_attachments (message : Json) (guildId : String) (searchTs : Json)
    (accountId : Json) (s : Store) : List Json → Store × Option PyErr
  | [] => (s, none)
  | att :: rest =>
    match extractAttachmentFields message att with
    | .error e => (s, some e)
    | .ok f =>
      if pyTruthy f.url then
        let s1 := Database.insert_media
          ⟨f.file_id, f.url, f.filename, f.size, f.content_type, f.width, f.height,
            f.user_id, .str guildId, f.channel_id, accountId, f.timestamp, searchTs⟩ s
        match Database.insert_user f.user_id f.username none s1 with
        | .error e => (s1, some e)
        | .ok s2 =>
          let s3 := Database.update_guild_timestamp guildId searchTs s2
          let s4 :=
            if guildId == "@me" then
              Database.insert_channel f.channel_id (.str (pyStr f.username ++ " DMs"))
                (.str guildId) (.bool false) (.bool true) s3
            else s3
          process_attachments message guildId searchTs accountId s4 rest
      else
        process_attachments message guildId searchTs accountId s rest

/-- main.py DiscordScraper.process_message: iterate over
message.get("attachments", []). -/
def process_message (message : Json) (guildId : String) (searchTs : Json)
    (accountId : Json) (s : Store) : Store × Option PyErr :=
  match Json.get message "attachments" (.arr []) with
  | .error e => (s, some e)
  | .ok atts =>
    match pyIter atts with
    | .error e => (s, some e)
    | .ok attList => process_attachments message guildId searchTs accountId s attList

/-- One page of the consumer loop of main.py process_guild_messages: for
each yielded item take item[0] and process it; the first uncaught exception
stops the run with the store writes already committed. -/
def process_items (guildId : String) (searchTs : Json) (accountId : Json) :
    List Json → Store → Store × Option PyErr
  | [], s => (s, none)
  | item :: rest, s =>
    match pySub0 item with
    | .error e => (s, some e)
    | .ok m =>
      match process_message m guildId searchTs accountId s with
      | (s', some e) => (s', some e)
      | (s', none) => process_items guildId searchTs accountId rest s'

/-- Processing of one yielded page (messages value plus its cursor). -/
def process_page (messages : Json) (guildId : String) (searchTs : Json)
    (accountId : Json) (s : Store) : Store × Option PyErr :=
  match pyIter messages with
  | .error e => (s, some e)
  | .ok items => process_items guildId searchTs accountId items s

/-- Result of walking one scope: the requests issued (time acquired and
cursor timestamp sent, Json.null for an absent cursor), the store, and the
first uncaught exception, if any. -/
structure WalkOut where
  trace : List (ℚ × Json)
  store : Store
  err : Option PyErr

/-- The while-True loop of main.py search_guild_media fused with its
consumer process_guild_messages, driven by a finite script of responses
(one script entry per request actually issued; an empty script means the
walk is cut off before its next request).  A body carrying the rate-limit
sentinel sleeps retry_after * 1.2 and reissues the identical request; a
page is processed and then, if the yielded cursor timestamp is truthy, the
request cursor is replaced by it; an empty page ends the walk.  Time only
advances at the modelled sleeps. -/
def search_walk (accountId : Json) (guildId : String) (cursor : Json) (now : ℚ)
    (s : Store) : List SearchResponse → WalkOut
  | [] => ⟨[], s, none⟩
  | r :: rest =>
    match classifySearchResponse r with
    | .error e => ⟨[(now, cursor)], s, some e⟩
    | .ok (.rateLimited ra) =>
      let out := search_walk accountId guildId cursor (now + ra * (6 / 5)) s rest
      ⟨(now, cursor) :: out.trace, out.store, out.err⟩
    | .ok .exhausted => ⟨[(now, cursor)], s, none⟩
    | .ok (.page messages ts) =>
      match process_page messages guildId ts accountId s with
      | (s', some e) => ⟨[(now, cursor)], s', some e⟩
      | (s', none) =>
        let cursor' := if pyTruthy ts then ts else cursor
        let out := search_walk accountId guildId cursor' now s' rest
        ⟨(now, cursor) :: out.trace, out.store, out.err⟩

/-- Resume-point selection of main.py process_guild_messages:
last_timestamp = guild[2] if not args.deep_scrape else None. -/
def start_timestamp (deepScrape : Bool) (stored : Json) : Json :=
  if deepScrape then .null else stored

/-- Initial request cursor of search_guild_media: the cursor object is sent
only when the starting timestamp is truthy. -/
def init_cursor (timestamp : Json) : Json :=
  if pyTruthy timestamp then timestamp else .null

/-- An HTTP response to a channel-listing request. -/
structure ChanResponse where
  status : ℕ
  body : Json

/-- One guild entry processed by main.py get_guild_channels, together with
the scripted responses it receives (responses after the first are consumed
only by the retry-on-429 recursion). -/
structure GuildEntry where
  gid : String
  gname : String
  resps : List ChanResponse

/-- Errors that abort main.py get_guild_channels: an uncaught Python
exception while reading the body, or the explicit raise on an unexpected
status. -/
inductive ChanErr where
  | pyExc (e : PyErr)
  | fatalStatus (gid : String) (status : ℕ)
  deriving DecidableEq

/-- The loop body of the 200-branch of get_guild_channels: a channel of
type 0 (text) is upserted with its id, name and nsfw flag, any other
channel is skipped. -/
def insertChannelFromJson (guildId : String) (st : Store) (ch : Json) :
    Except PyErr Store := do
  let ty ← ch.get "type" (.num (-1))
  if pyEqNum ty 0 then
    let cid ← ch.get "id" (.num 0)
    let cname ← ch.get "name" (.str "")
    let nsfw ← ch.get "nsfw" (.bool false)
    pure (Database.insert_channel cid cname (.str guildId) nsfw (.bool false) st)
  else
    pure st

/-- The 200-branch of get_guild_channels: iterate the body and upsert the
text channels it lists. -/
def insertChannelsFromBody (body : Json) (guildId : String) (s : Store) :
    Except PyErr Store := do
  let chans ← pyIter body
  chans.foldlM (insertChannelFromJson guildId) s

/-- Status dispatch of get_guild_channels for a single guild: 200 inserts
the listed text channels, 429 sleeps 5 seconds and retries the same guild
(the recursive self-call, consuming the next scripted response), 403 and
404 remove the guild from the store and move on, and any other status
raises, aborting the whole run. -/
def handle_guild_responses (gid : String) (s : Store) :
    List ChanResponse → Except ChanErr Store
  | [] => .ok s
  | r :: more =>
    if r.status = 200 then
      match insertChannelsFromBody r.body gid s with
      | .ok s' => .ok s'
      | .error e => .error (.pyExc e)
    else if r.status = 429 then
      handle_guild_responses gid s more
    else if r.status = 403 then
      .ok (Database.remove_guild gid s)
    else if r.status = 404 then
      .ok (Database.remove_guild gid s)
    else
      .error (.fatalStatus gid r.status)

/-- main.py get_guild_channels over its guild list: each guild is handled in
turn; a fatal error propagates and aborts the remaining guilds. -/
def get_guild_channels (s : Store) : List GuildEntry → Except ChanErr Store
  | [] => .ok s
  | e :: rest =>
    match handle_guild_responses e.gid s e.resps with
    | .ok s' => get_guild_channels s' rest
    | .error err => .error err

end Main

namespace DumpMessages

/-- dump_messages.py line 21 overrides the parsed flag:
args.store_messages = True. -/
def storeMessagesFlag : Bool := true

/-- One database write issued by dump_messages.py process_message, carrying
the key it writes; updateCursor records the timestamp written to the guild
row and the type discriminator of update_guild_timestamp (0 media cursor,
1 message cursor). -/
inductive DbOp where
  | insertMessage (messageId : Json)
  | insertUser (userId : Json)
  | updateCursor (ts : Json) (kind : ℕ)
  | insertChannel (channelId : Json)
  | insertMedia (fileId : Json)

/-- Field values read from a message by dump_messages.py process_message
before any database write. -/
structure MessageFields where
  message_id : Json
  channel_id : Json
  user_id : Json
  attachments : Json

/-- The field extraction block at the top of dump_messages.py
process_message (content, username and the two timestamps are read too but
feed only into writes whose keys we do not track). -/
def extractMessageFields (message : Json) : Except PyErr MessageFields := do
  let mid ← message.get "id" (.num 0)
  let _content ← message.get "content" (.str "")
  let cid ← message.get "channel_id" (.num 0)
  let author ← message.get "author" (.obj [])
  let uid ← author.get "id" (.num 0)
  let _uname ← author.get "username" (.str "")
  let _ts ← message.get "timestamp" (.str "")
  let _ets ← message.get "edited_timestamp" (.str "")
  let atts ← message.get "attachments" (.arr [])
  pure ⟨mid, cid, uid, atts⟩

/-- The attachment loop at the bottom of dump_messages.py process_message:
per attachment the fields are read, and a media insert is issued only for a
truthy url; the first extraction error stops the loop. -/
def attachment_ops : List Json → List DbOp × Option PyErr
  | [] => ([], none)
  | att :: rest =>
    match (do
      let fid ← att.get "id" (.num 0)
      let url ← att.get "url" .null
      let _fname ← att.get "filename" .null
      let _size ← att.get "size" (.num 0)
      let _ctype ← att.get "content_type" .null
      let _w ← att.get "width" (.num 0)
      let _h ← att.get "height" (.num 0)
      pure (fid, url) : Except PyErr (Json × Json)) with
    | .error e => ([], some e)
    | .ok (fid, url) =>
      if pyTruthy url then
        let (ops, e) := attachment_ops rest
        (DbOp.insertMedia fid :: ops, e)
      else
        attachment_ops rest

/-- The write sequence of dump_messages.py process_message for one message:
insert_message, insert_user, update_guild_timestamp with the page search
timestamp (message-cursor kind, since store_messages is forced on), then
the direct-message insert_channel, then one insert_media per attachment
with a truthy url.  The second component is the first uncaught exception;
the writes before it have already been committed. -/
def process_message_ops (message : Json) (guildId : String) (searchTs : Json) :
    List DbOp × Option PyErr :=
  match extractMessageFields message with
  | .error e => ([], some e)
  | .ok f =>
    let base := [DbOp.insertMessage f.message_id, DbOp.insertUser f.user_id,
      DbOp.updateCursor searchTs (if storeMessagesFlag then 1 else 0)]
      ++ (if guildId == "@me" then [DbOp.insertChannel f.channel_id] else [])
    match pyIter f.attachments with
    | .error e => (base, some e)
    | .ok attList =>
      let (mediaOps, e) := attachment_ops attList
      (base ++ mediaOps, e)

/-- The consumer loop of dump_messages.py process_guild_messages applied to
the items of one yielded page: item[0] is processed per item, and the first
exception stops the run with the earlier writes committed. -/
def items_ops (guildId : String) (searchTs : Json) :
    List Json → List DbOp × Option PyErr
  | [] => ([], none)
  | item :: rest =>
    match pySub0 item with
    | .error e => ([], some e)
    | .ok m =>
      match process_message_ops m guildId searchTs with
      | (ops, some e) => (ops, some e)
      | (ops, none) =>
        let (more, e) := items_ops guildId searchTs rest
        (ops ++ more, e)

/-- The database writes issued while consuming one yielded page. -/
def page_ops (messages : Json) (guildId : String) (searchTs : Json) :
    List DbOp × Option PyErr :=
  match pyIter messages with
  | .error e => ([], some e)
  | .ok items => items_ops guildId searchTs items

/-- The timestamp a write stores into the guild resume cursor, when the
write is a cursor update carrying a string timestamp. -/
def cursorWritten : DbOp → Option String
  | .updateCursor (.str s) _ => some s
  | _ => none

/-- Resume-cursor values written while consuming one page whose yielded
cursor is the string c. -/
def page_cursor_writes (messages : Json) (guildId : String) (c : String) :
    List String :=
  ((page_ops messages guildId (.str c)).1).filterMap cursorWritten

/-- Resume-cursor values written over a whole run of a scope, given the
pages (messages value and string cursor) its search yielded in order. -/
def run_cursor_writes (guildId : String) (pages : List (Json × String)) :
    List String :=
  (pages.map fun p => page_cursor_writes p.1 guildId p.2).flatten

/-- Resume-point selection of dump_messages.py process_guild_messages:
last_timestamp = guild[2] if not args.deep_scrape else None. -/
def start_timestamp (deepScrape : Bool) (stored : Json) : Json :=
  if deepScrape then .null else stored

/-- Row of the guilds table of dump_messages.py (id TEXT PRIMARY KEY, name,
last_media_timestamp, last_message_timestamp). -/
structure GuildRow where
  id : String
  name : String
  last_media_timestamp : Option String
  last_message_timestamp : Option String
  deriving DecidableEq

/-- The guilds table of dump_messages.py (the only table its scope
enumeration reads). -/
structure Store where
  guilds : List GuildRow
  deriving DecidableEq

/-- The hard-coded guild id allow-list of dump_messages.py
Database.get_guilds line 435, in source order. -/
def allowList : List String :=
  ["828457542984269824", "868647576147214346", "946184119681974312",
   "981383507240714251", "987930226510164048", "1008185503675322438",
   "1010957855781826581", "1014622053447503963", "1044790295709110302",
   "1048365633370333257", "1074390145949773935", "1075901389483560970",
   "1082723000018817084", "1092654605508296796", "1101492300569391155",
   "1106578934096723989", "1122129950829453394", "1191181354176622643",
   "1214770852445294675", "1267923275523031181", "1284154644972441672",
   "1323109688098820116", "1331814509534249051"]

/-- dump_messages.py Database.get_guilds (get_dms false): all guild rows,
filtered to the hard-coded allow-list, then filtered against the
direct-message pseudo-id. -/
def get_guilds (s : Store) : List GuildRow :=
  let guilds2 := s.guilds.filter fun g => allowList.contains g.id
  guilds2.filter fun g => !(["@me"].contains g.id)

end DumpMessages

namespace DumpToCdl

/-- A parsed URL as yarl exposes it to dump_to_cdl.py: host plus the query
mapping (first binding wins on lookup); other parts are never read or
rewritten by check_cdn_expired, and are summarised by the rest field so
that with_host provably preserves them. -/
structure Url where
  host : String
  query : List (String × String)
  rest : String
  deriving DecidableEq

/-- yarl url.query.get(key): first value bound to the key, if any. -/
def Url.queryGet (u : Url) (k : String) : Option String :=
  u.query.lookup k

/-- yarl url.with_host: replace the host, keep everything else. -/
def Url.with_host (u : Url) (h : String) : Url :=
  { u with host := h }

/-- Value of one hexadecimal digit. -/
def hexDigitVal (c : Char) : Option ℕ :=
  if '0' ≤ c ∧ c ≤ '9' then some (c.toNat - '0'.toNat)
  else if 'a' ≤ c ∧ c ≤ 'f' then some (c.toNat - 'a'.toNat + 10)
  else if 'A' ≤ c ∧ c ≤ 'F' then some (c.toNat - 'A'.toNat + 10)
  else none

/-- Helper for int(s, 16): accumulate hexadecimal digits. -/
def hexAcc : List Char → ℕ → Except PyErr ℕ
  | [], acc => .ok acc
  | c :: rest, acc =>
    match hexDigitVal c with
    | some v => hexAcc rest (16 * acc + v)
    | none => .error .valueError

/-- Python int(s, 16) on the kind of value an ex query parameter holds: a
nonempty bare unsigned hexadecimal literal; anything else raises ValueError
(sign, 0x prefix and surrounding whitespace, which Python would also
accept, do not occur in these URLs). -/
def int16 (s : String) : Except PyErr ℕ :=
  match s.data with
  | [] => .error .valueError
  | cs => hexAcc cs 0

/-- dump_to_cdl.py Dumper.check_cdn_expired, with the current time in
milliseconds passed explicitly.  When fix_cdn is disabled the URL is
returned unchanged.  Otherwise the code evaluates
int(url.query.get("ex", 0), 16): if the ex parameter is absent the default
is the integer 0 and int(0, 16) raises TypeError (int() cannot convert a
non-string with an explicit base); if present, its hexadecimal value times
1000 is compared against the current time and the host is rewritten exactly
when expiry <= now. -/
def check_cdn_expired (fixCdn : Bool) (nowMs : ℚ) (u : Url) : Except PyErr Url :=
  if fixCdn then
    match u.queryGet "ex" with
    | none => .error .typeError
    | some s => do
      let v ← int16 s
      if ((v : ℚ) * 1000) ≤ nowMs then
        .ok (u.with_host "fixcdn.hyonsu.com")
      else
        .ok u
  else
    .ok u

end DumpToCdl

/-! Timestamp ordering.  The cursors of the search API are ISO-8601 strings,
whose chronological order is their lexicographic character order. -/

/-- Lexicographic less-or-equal on character lists. -/
def charsLe : List Char → List Char → Bool
  | [], _ => true
  | _ :: _, [] => false
  | a :: as, b :: bs =>
    if a.toNat < b.toNat then true
    else if b.toNat < a.toNat then false
    else charsLe as bs

/-- Lexicographic less-or-equal on timestamp strings. -/
def tsLe (a b : String) : Bool :=
  charsLe a.data b.data

/-- Whether a list of timestamps is non-decreasing. -/
def ascB : List String → Bool
  | [] => true
  | [_] => true
  | a :: b :: rest => tsLe a b && ascB (b :: rest)

namespace DumpMessages

/-- Whether a write advances the scope resume cursor. -/
def DbOp.isCursorWrite : DbOp → Bool
  | .updateCursor _ _ => true
  | _ => false

/-- Whether a write persists a message row. -/
def DbOp.isMessageRow : DbOp → Bool
  | .insertMessage _ => true
  | _ => false

/-- Whether a write persists a media row. -/
def DbOp.isMediaRow : DbOp → Bool
  | .insertMedia _ => true
  | _ => false

end DumpMessages

namespace Main

/-- Shape of a channel-listing body that the 200-branch of
get_guild_channels consumes without raising: a JSON array whose elements
are all dicts. -/
def chanBodyWf (body : Json) : Bool :=
  match body with
  | .arr chans => chans.all fun ch =>
      match ch with
      | .obj _ => true
      | _ => false
  | _ => false

end Main

/-! Concrete inputs used by the counterexamples and witnesses below. -/

/-- A store holding the single guild scope G1 with no stored cursor. -/
def exStoreG1 : Main.Store :=
  { Main.Store.empty with guilds := [⟨"G1", "Guild One", .null⟩] }

/-- First attachment of scenario A. -/
def exAttachment1 : Json :=
  .obj [("id", .str "f1"), ("url", .str "https://cdn.example/a.png"),
    ("filename", .str "a.png"), ("size", .num 10),
    ("content_type", .str "image/png"), ("width", .num 100), ("height", .num 80)]

/-- Second attachment of scenario A. -/
def exAttachment2 : Json :=
  .obj [("id", .str "f2"), ("url", .str "https://cdn.example/b.png"),
    ("filename", .str "b.png"), ("size", .num 20),
    ("content_type", .str "image/png"), ("width", .num 50), ("height", .num 40)]

/-- First message of scenario A, timestamp t1. -/
def exMessage1 : Json :=
  .obj [("id", .str "m1"), ("content", .str "first"), ("channel_id", .str "C1"),
    ("author", .obj [("id", .str "u1"), ("username", .str "alice")]),
    ("timestamp", .str "2024-01-01T00:00:00"), ("edited_timestamp", .null),
    ("attachments", .arr [exAttachment1])]

/-- Second message of scenario A, timestamp t2 greater than t1. -/
def exMessage2 : Json :=
  .obj [("id", .str "m2"), ("content", .str "second"), ("channel_id", .str "C1"),
    ("author", .obj [("id", .str "u2"), ("username", .str "bob")]),
    ("timestamp", .str "2024-01-02T00:00:00"), ("edited_timestamp", .null),
    ("attachments", .arr [exAttachment2])]

/-- First response body of scenario A: both messages plus the cursor t2. -/
def exPageBodyA : Json :=
  .obj [("tabs", .obj [("media", .obj [
    ("messages", .arr [.arr [exMessage1], .arr [exMessage2]]),
    ("cursor", .obj [("timestamp", .str "2024-01-02T00:00:00")])])])]

/-- A response body with zero results in the expected shape. -/
def exEmptyBody : Json :=
  .obj [("tabs", .obj [("media", .obj [("messages", .arr [])])])]

/-- The walk of scenario A on main.py: scope G1, no stored cursor, first
response the two-message page, second response empty. -/
def exRunA : Main.WalkOut :=
  Main.search_walk (.str "acct") "G1"
    (Main.init_cursor (Main.start_timestamp false .null)) 0 exStoreG1
    [⟨200, exPageBodyA⟩, ⟨200, exEmptyBody⟩]

/-- A message with no attachments, for runs that exercise the walk without
touching the broken user upsert. -/
def exMessageNoAtt : Json :=
  .obj [("id", .str "m3"), ("content", .str "third"), ("channel_id", .str "C2"),
    ("author", .obj [("id", .str "u3"), ("username", .str "carol")]),
    ("timestamp", .str "2024-01-03T00:00:00"), ("edited_timestamp", .null),
    ("attachments", .arr [])]

/-- A result page whose only message carries no attachments. -/
def exPageBodyNoAtt : Json :=
  .obj [("tabs", .obj [("media", .obj [
    ("messages", .arr [.arr [exMessageNoAtt]]),
    ("cursor", .obj [("timestamp", .str "2024-01-03T00:00:00")])])])]

/-- A search response with HTTP status 403 that still carries a result page
in its body. -/
def exResp403 : SearchResponse := ⟨403, exPageBodyNoAtt⟩

/-- A search response with HTTP status 403 and an empty JSON object body,
the realistic body of a forbidden search. -/
def exResp403Empty : SearchResponse := ⟨403, .obj []⟩

/-- The walk that receives only 403 responses. -/
def exRun403 : Main.WalkOut :=
  Main.search_walk (.str "acct") "G1" .null 0 exStoreG1 [exResp403, exResp403Empty]

/-- A rate-limit response body with retry_after 2. -/
def exRateLimitedBody : Json :=
  .obj [("message", .str "You are being rate limited."), ("retry_after", .num 2)]

/-- A body that is malformed in an expected nested field: tabs holds a
number instead of a dict. -/
def exMalformedBody : Json :=
  .obj [("tabs", .num 5)]

/-- A body missing the nested media fields entirely. -/
def exMissingFieldsBody : Json :=
  .obj [("tabs", .obj [])]

/-- A dump_messages message with one url-carrying attachment, used to
exhibit the write order of one page. -/
def exDmMessage : Json :=
  .obj [("id", .str "m9"), ("content", .str "hello"), ("channel_id", .str "C9"),
    ("author", .obj [("id", .str "u9"), ("username", .str "dave")]),
    ("timestamp", .str "2024-02-01T00:00:00"), ("edited_timestamp", .null),
    ("attachments", .arr [.obj [("id", .str "f9"),
      ("url", .str "https://cdn.example/c.png"), ("filename", .str "c.png"),
      ("size", .num 30), ("content_type", .str "image/png"),
      ("width", .num 10), ("height", .num 10)]])]

/-- The messages value of a one-message page in the wire shape (a list of
one-element lists). -/
def exDmPage : Json := .arr [.arr [exDmMessage]]

/-- A guild-channels entry answered 403. -/
def exEntryG1 : Main.GuildEntry := ⟨"G1", "Guild One", [⟨403, .obj []⟩]⟩

/-- A guild-channels entry answered 200 with one text channel. -/
def exEntryG2 : Main.GuildEntry :=
  ⟨"G2", "Guild Two", [⟨200, .arr [.obj [("type", .num 0), ("id", .str "c1"),
    ("name", .str "general"), ("nsfw", .bool false)]]⟩]⟩

/-- A store holding the two guilds G1 and G2. -/
def exStoreG1G2 : Main.Store :=
  { Main.Store.empty with
    guilds := [⟨"G1", "Guild One", .null⟩, ⟨"G2", "Guild Two", .null⟩] }

/-- A dump_messages store holding one allow-listed guild and one other. -/
def exDmStore : DumpMessages.Store :=
  ⟨[⟨"828457542984269824", "Listed", none, none⟩, ⟨"999", "Unlisted", none, none⟩]⟩

/-- A URL whose query has no ex parameter. -/
def exUrlNoEx : DumpToCdl.Url :=
  ⟨"cdn.discordapp.com", [("is", "6789"), ("hm", "abc")], "/attachments/1/2/a.png"⟩

/-- A URL carrying the hexadecimal expiry parameter aabb (43707 decimal). -/
def exUrlWithEx : DumpToCdl.Url :=
  ⟨"cdn.discordapp.com", [("ex", "aabb")], "/attachments/1/2/a.png"⟩

/-! ## Theorems -/

/-- Reflexivity of the JSON structural equality used for primary keys. -/
theorem Json.beq_refl : ∀ j : Json, Json.beq j j = true
  | .null => rfl
  | .bool b => by simp [Json.beq]
  | .num q => by simp [Json.beq]
  | .str s => by simp [Json.beq]
  | .arr [] => rfl
  | .arr (x :: xs) => by
    have h1 := Json.beq_refl x
    have h2 := Json.beq_refl (.arr xs)
    simp only [Json.beq] at h2
    simp only [Json.beq, Json.beq.beqList, Bool.and_eq_true]
    exact ⟨h1, h2⟩
  | .obj [] => rfl
  | .obj ((k, v) :: fs) => by
    have h1 := Json.beq_refl v
    have h2 := Json.beq_refl (.obj fs)
    simp only [Json.beq] at h2
    simp only [Json.beq, Json.beq.beqObj, Bool.and_eq_true, beq_self_eq_true]
    exact ⟨⟨trivial, h1⟩, h2⟩

/-- Unfolding of the walk at a response classified as an uncaught error. -/
theorem search_walk_error (accountId : Json) (guildId : String) (cursor : Json)
    (now : ℚ) (s : Main.Store) (r : SearchResponse) (rest : List SearchResponse)
    (e : PyErr) (h : classifySearchResponse r = .error e) :
    Main.search_walk accountId guildId cursor now s (r :: rest)
      = ⟨[(now, cursor)], s, some e⟩ := by
  rw [Main.search_walk, h]

/-- Unfolding of the walk at a response classified as exhausted. -/
theorem search_walk_exhausted (accountId : Json) (guildId : String) (cursor : Json)
    (now : ℚ) (s : Main.Store) (r : SearchResponse) (rest : List SearchResponse)
    (h : classifySearchResponse r = .ok .exhausted) :
    Main.search_walk accountId guildId cursor now s (r :: rest)
      = ⟨[(now, cursor)], s, none⟩ := by
  rw [Main.search_walk, h]

/-- Unfolding of the walk at a rate-limited response: the continuation
runs at the backed-off time with everything else unchanged. -/
theorem search_walk_rate_limited (accountId : Json) (guildId : String)
    (cursor : Json) (now : ℚ) (s : Main.Store) (r : SearchResponse)
    (rest : List SearchResponse) (ra : ℚ)
    (h : classifySearchResponse r = .ok (.rateLimited ra)) :
    Main.search_walk accountId guildId cursor now s (r :: rest)
      = ⟨(now, cursor) ::
            (Main.search_walk accountId guildId cursor (now + ra * (6 / 5)) s rest).trace,
          (Main.search_walk accountId guildId cursor (now + ra * (6 / 5)) s rest).store,
          (Main.search_walk accountId guildId cursor (now + ra * (6 / 5)) s rest).err⟩ := by
  rw [Main.search_walk, h]

/-- Every branch of the walk loop issues its next request at the current
time with the current cursor, so the request trace of a nonempty script
starts with the pending request. -/
theorem search_walk_trace_cons (accountId : Json) (guildId : String) (cursor : Json)
    (now : ℚ) (s : Main.Store) (r : SearchResponse) (rest : List SearchResponse) :
    ∃ tl, (Main.search_walk accountId guildId cursor now s (r :: rest)).trace
      = (now, cursor) :: tl := by
  cases h : classifySearchResponse r with
  | error e => exact ⟨[], by rw [search_walk_error _ _ _ _ _ _ _ _ h]⟩
  | ok o =>
    cases o with
    | rateLimited ra =>
      exact ⟨_, by rw [search_walk_rate_limited _ _ _ _ _ _ _ _ h]⟩
    | exhausted => exact ⟨[], by rw [search_walk_exhausted _ _ _ _ _ _ _ h]⟩
    | page msgs ts =>
      cases hp : Main.process_page msgs guildId ts accountId s with
      | mk s2 e =>
        cases e with
        | none =>
          exact ⟨(Main.search_walk accountId guildId
              (if pyTruthy ts then ts else cursor) now s2 rest).trace,
            by simp [Main.search_walk, h, hp]⟩
        | some ex => exact ⟨[], by simp [Main.search_walk, h, hp]⟩

/-- C1.  The claim asserts that the upsert of every entity type, including
the user upsert, is idempotent and safe to repeat.  The code cannot satisfy
this for users: the main.py insert_user statement names 2 columns but 3
value placeholders, so on every input SQLite raises OperationalError at
prepare time and no user row is ever upserted. -/
theorem c1_insert_user_always_raises (userId username : Json)
    (channelId : Option Json) (s : Main.Store) :
    Main.Database.insert_user userId username channelId s
      = .error (.operationalError "3 values for 2 columns") := rfl

/-- The media upsert of main.py is idempotent: replaying the same row
leaves the table exactly as after the first write (supporting observation
for the part of the idempotence claim that the code does satisfy). -/
theorem insert_media_idempotent (row : Main.MediaRow) (s : Main.Store) :
    Main.Database.insert_media row (Main.Database.insert_media row s)
      = Main.Database.insert_media row s := by
  have key : ∀ l : List Main.MediaRow,
      Main.upsertBy (fun a b => Json.beq a.file_id b.file_id)
          (fun old new => { old with url := new.url }) row
        (Main.upsertBy (fun a b => Json.beq a.file_id b.file_id)
          (fun old new => { old with url := new.url }) row l)
      = Main.upsertBy (fun a b => Json.beq a.file_id b.file_id)
          (fun old new => { old with url := new.url }) row l := by
    intro l
    induction l with
    | nil => simp [Main.upsertBy, Json.beq_refl]
    | cons r rs ih =>
      by_cases h : Json.beq r.file_id row.file_id = true
      · simp [Main.upsertBy, h]
      · simp [Main.upsertBy, h, ih]
  simp [Main.Database.insert_media, key]

/-- C2 (counterexample).  The claim asserts the resume cursor is advanced
to the cursor of a page only after all messages and media of that page
are persisted.  In the write sequence of a concrete one-message page, the
cursor update (index 2) precedes the media insert (index 3). -/
theorem c2_counterexample :
    ¬ (∀ (i j : ℕ) (ts : Json) (k : ℕ) (fid : Json),
        (DumpMessages.page_ops exDmPage "G1" (.str "t2")).1.get? i
            = some (.updateCursor ts k) →
        (DumpMessages.page_ops exDmPage "G1" (.str "t2")).1.get? j
            = some (.insertMedia fid) →
        j < i) := by
  intro h
  have h23 := h 2 3 (.str "t2") 1 (.str "f9") rfl rfl
  omega

/-- C4 (counterexample).  The claim asserts that an HTTP 403 search
response permanently aborts the walk of the scope (no further requests)
and deregisters the scope.  In a concrete run whose first response has
status 403 but a result-carrying body, a second request is issued and the
guild remains in the scope list, because the walk never reads the status. -/
theorem c4_counterexample :
    ¬ (∀ (resps : List SearchResponse) (i : ℕ) (r : SearchResponse),
        resps.get? i = some r → r.status = 403 →
        (Main.search_walk (.str "acct") "G1" .null 0 exStoreG1 resps).trace.length
            ≤ i + 1 ∧
        "G1" ∉ (Main.Database.get_guilds
          (Main.search_walk (.str "acct") "G1" .null 0 exStoreG1 resps).store).map
            Main.GuildRow.id) := by
  intro h
  have h0 := h [exResp403, exResp403Empty] 0 exResp403 rfl rfl
  have hlen : (Main.search_walk (.str "acct") "G1" .null 0 exStoreG1
      [exResp403, exResp403Empty]).trace.length = 2 := rfl
  omega

/-- C7 (counterexample).  The claim asserts that a body malformed in the
expected nested fields degrades to an empty results array and ends the walk
as exhausted, never fatally.  A body whose tabs field holds a number makes
the chained dict access raise AttributeError, which propagates out of the
walk as an uncaught exception instead of a graceful exhaustion. -/
theorem c7_counterexample :
    classifyBody exMalformedBody = .error .attributeError ∧
    ¬ (classifyBody exMalformedBody = .ok .exhausted) ∧
    (Main.search_walk (.str "acct") "G1" .null 0 exStoreG1
        [⟨200, exMalformedBody⟩]).err = some .attributeError := by
  refine ⟨rfl, fun h => ?_, rfl⟩
  have h2 : (Except.error PyErr.attributeError : Except PyErr SearchOutcome)
      = .ok .exhausted := h
  exact Except.noConfusion h2

/-- C8.  The claim describes scenario A: a two-message page with cursor t2
followed by an empty page should leave 2 media rows, the stored cursor t2,
and exactly 2 requests.  The code instead crashes inside process_message:
after the first media row is committed, insert_user raises OperationalError
(its SQL lists 3 values for 2 columns), so the run ends with 1 media row,
an unchanged (NULL) cursor, 1 request, and the exception. -/
theorem c8_scenario_a_crashes :
    exRunA.trace.length = 1 ∧
    Main.Database.count_media exRunA.store = 1 ∧
    exRunA.store.media.map Main.MediaRow.file_id = [.str "f1"] ∧
    exRunA.store.guilds.map (fun g => (g.id, g.last_timestamp)) = [("G1", .null)] ∧
    exRunA.err = some (.operationalError "3 values for 2 columns") :=
  ⟨rfl, rfl, rfl, rfl, rfl⟩

/-- C6.  Whenever a response body carries the rate-limit sentinel with
retry_after ra, the walk sleeps ra * 1.2 and reissues the next request with
exactly the same cursor, having made no progress: the store is untouched
and the retried request is the immediate successor in the trace. -/
theorem c6_rate_limit_retry (accountId : Json) (guildId : String) (cursor : Json)
    (now : ℚ) (s : Main.Store) (r r2 : SearchResponse) (rest : List SearchResponse)
    (ra : ℚ) (h : classifySearchResponse r = .ok (.rateLimited ra)) :
    (∃ tl, (Main.search_walk accountId guildId cursor now s (r :: r2 :: rest)).trace
        = (now, cursor) :: (now + ra * (6 / 5), cursor) :: tl) ∧
    (Main.search_walk accountId guildId cursor now s (r :: r2 :: rest)).store
      = (Main.search_walk accountId guildId cursor (now + ra * (6 / 5)) s
          (r2 :: rest)).store := by
  obtain ⟨tl, htl⟩ := search_walk_trace_cons accountId guildId cursor
    (now + ra * (6 / 5)) s r2 rest
  rw [search_walk_rate_limited _ _ _ _ _ _ _ _ h]
  exact ⟨⟨tl, by rw [htl]⟩, rfl⟩

/-- Witness for C6 at retry_after 2: the retried request is issued at
simulated time 2 * 1.2 with the same absent cursor, and the store is the
one the continuation walk computes. -/
theorem c6_witness :
    (∃ tl, (Main.search_walk (.str "acct") "G1" .null 0 exStoreG1
        [⟨200, exRateLimitedBody⟩, ⟨200, exEmptyBody⟩]).trace
      = (0, .null) :: (0 + 2 * (6 / 5), .null) :: tl) ∧
    (Main.search_walk (.str "acct") "G1" .null 0 exStoreG1
        [⟨200, exRateLimitedBody⟩, ⟨200, exEmptyBody⟩]).store
      = (Main.search_walk (.str "acct") "G1" .null (0 + 2 * (6 / 5)) exStoreG1
          [⟨200, exEmptyBody⟩]).store :=
  c6_rate_limit_retry (.str "acct") "G1" .null 0 exStoreG1
    ⟨200, exRateLimitedBody⟩ ⟨200, exEmptyBody⟩ [] 2 rfl

/-- C4 (amended).  The media-search walk never inspects the HTTP status:
the outcome of a response is a function of the JSON body alone (the
rate-limit sentinel is tested first, then the messages array), so a 403 or
404 response with a result-less body merely ends the walk of the scope as
exhausted, with no deregistration; status-based deregistration exists only
in the channel-listing path. -/
theorem c4_amended :
    (∀ (st1 st2 : ℕ) (body : Json),
      classifySearchResponse ⟨st1, body⟩ = classifySearchResponse ⟨st2, body⟩) ∧
    (∀ st : ℕ, classifySearchResponse ⟨st, .obj []⟩ = .ok .exhausted) ∧
    (∀ (accountId : Json) (guildId : String) (cursor : Json) (now : ℚ)
        (s : Main.Store) (st : ℕ) (rest : List SearchResponse),
      Main.search_walk accountId guildId cursor now s (⟨st, .obj []⟩ :: rest)
        = ⟨[(now, cursor)], s, none⟩) :=
  ⟨fun _ _ _ => rfl, fun _ => rfl,
    fun accountId guildId cursor now s st rest =>
      search_walk_exhausted accountId guildId cursor now s ⟨st, .obj []⟩ rest rfl⟩

/-- C9.  The scope list of the dump_messages variant contains only guilds
whose id belongs to the hard-coded 23-element allow-list and never the
direct-message pseudo-scope, and a stored guild outside the list is never
enumerated for walking. -/
theorem c9_guild_allow_list :
    (∀ (s : DumpMessages.Store), ∀ g ∈ DumpMessages.get_guilds s,
      DumpMessages.allowList.contains g.id = true ∧ g.id ≠ "@me") ∧
    DumpMessages.allowList.length = 23 ∧
    DumpMessages.allowList.contains "@me" = false ∧
    (∀ (s : DumpMessages.Store), ∀ g ∈ s.guilds,
      DumpMessages.allowList.contains g.id = false →
        g ∉ DumpMessages.get_guilds s) := by
  refine ⟨?_, rfl, by decide, ?_⟩
  · intro s g hg
    simp only [DumpMessages.get_guilds, List.mem_filter, Bool.not_eq_true'] at hg
    refine ⟨hg.1.2, fun heq => ?_⟩
    have h2 := hg.2
    rw [heq] at h2
    exact absurd h2 (by decide)
  · intro s g _hg hout h
    simp only [DumpMessages.get_guilds, List.mem_filter] at h
    rw [hout] at h
    exact absurd h.1.2 (by simp)

/-- Witness for C9 at a concrete store holding one allow-listed guild: the
enumerated guild is allow-listed and is not the direct-message scope. -/
theorem c9_witness :
    DumpMessages.allowList.contains "828457542984269824" = true ∧
    "828457542984269824" ≠ "@me" :=
  c9_guild_allow_list.1 exDmStore ⟨"828457542984269824", "Listed", none, none⟩
    (by decide)

/-- C10 (counterexample).  The claim asserts that with fix-cdn enabled a
URL without an ex query parameter is always rewritten (the parameter
defaulting to 0).  On such a URL the code evaluates int(0, 16), which
raises TypeError, so nothing is rewritten and the call raises instead. -/
theorem c10_counterexample :
    DumpToCdl.check_cdn_expired true 1000000 exUrlNoEx = .error .typeError ∧
    ¬ (DumpToCdl.check_cdn_expired true 1000000 exUrlNoEx
        = .ok (exUrlNoEx.with_host "fixcdn.hyonsu.com")) := by
  refine ⟨rfl, fun h => ?_⟩
  have h2 : (Except.error PyErr.typeError : Except PyErr DumpToCdl.Url)
      = .ok (exUrlNoEx.with_host "fixcdn.hyonsu.com") := h
  exact Except.noConfusion h2

/-- C10 (amended).  With fix-cdn disabled every URL is returned unchanged.
With it enabled and an ex parameter present whose value parses as
hexadecimal v, the host is rewritten to fixcdn.hyonsu.com exactly when
v * 1000 is at most the current time in milliseconds, and otherwise the URL
is returned unchanged; a URL without an ex parameter raises TypeError. -/
theorem c10_amended :
    (∀ (nowMs : ℚ) (u : DumpToCdl.Url),
      DumpToCdl.check_cdn_expired false nowMs u = .ok u) ∧
    (∀ (nowMs : ℚ) (u : DumpToCdl.Url) (s : String) (v : ℕ),
      u.queryGet "ex" = some s → DumpToCdl.int16 s = .ok v →
      ((v : ℚ) * 1000) ≤ nowMs →
      DumpToCdl.check_cdn_expired true nowMs u
        = .ok (u.with_host "fixcdn.hyonsu.com")) ∧
    (∀ (nowMs : ℚ) (u : DumpToCdl.Url) (s : String) (v : ℕ),
      u.queryGet "ex" = some s → DumpToCdl.int16 s = .ok v →
      ¬ (((v : ℚ) * 1000) ≤ nowMs) →
      DumpToCdl.check_cdn_expired true nowMs u = .ok u) ∧
    (∀ (nowMs : ℚ) (u : DumpToCdl.Url),
      u.queryGet "ex" = none →
      DumpToCdl.check_cdn_expired true nowMs u = .error .typeError) := by
  refine ⟨fun nowMs u => rfl, ?_, ?_, ?_⟩
  · intro nowMs u s v hs hv hle
    simp only [DumpToCdl.check_cdn_expired, hs, hv, if_true]
    exact if_pos hle
  · intro nowMs u s v hs hv hgt
    simp only [DumpToCdl.check_cdn_expired, hs, hv, if_true]
    exact if_neg hgt
  · intro nowMs u hnone
    simp [DumpToCdl.check_cdn_expired, hnone]

/-- Witness for C10 at the URL carrying ex = aabb (43707 seconds): expired
against a large current time, so the host is rewritten; and the same URL is
untouched when fix-cdn is disabled. -/
theorem c10_witness :
    DumpToCdl.check_cdn_expired true 100000000 exUrlWithEx
      = .ok (exUrlWithEx.with_host "fixcdn.hyonsu.com") ∧
    DumpToCdl.check_cdn_expired false 100000000 exUrlWithEx = .ok exUrlWithEx :=
  ⟨c10_amended.2.1 100000000 exUrlWithEx "aabb" 43707 rfl rfl (by norm_num),
    c10_amended.1 100000000 exUrlWithEx⟩

/-- Reading a key from a JSON dict always succeeds, yielding the stored
value or the default. -/
theorem Json.get_obj (fs : List (String × Json)) (k : String) (d : Json) :
    Json.get (.obj fs) k d = .ok ((fs.lookup k).getD d) := by
  cases h : fs.lookup k <;> simp [Json.get, h]

/-- Handling one listed channel (a dict) never raises and never touches the
guilds table. -/
theorem insertChannelFromJson_obj_ok (guildId : String) (st : Main.Store)
    (fs : List (String × Json)) :
    ∃ st', Main.insertChannelFromJson guildId st (.obj fs) = .ok st'
      ∧ st'.guilds = st.guilds := by
  by_cases h : pyEqNum ((fs.lookup "type").getD (.num (-1))) 0 = true
  · refine ⟨Main.Database.insert_channel ((fs.lookup "id").getD (.num 0))
        ((fs.lookup "name").getD (.str "")) (.str guildId)
        ((fs.lookup "nsfw").getD (.bool false)) (.bool false) st, ?_, rfl⟩
    simp [Main.insertChannelFromJson, Json.get_obj, h, Bind.bind, Except.bind,
      Pure.pure, Except.pure]
  · exact ⟨st, by simp [Main.insertChannelFromJson, Json.get_obj, h, Bind.bind,
      Except.bind, Pure.pure, Except.pure], rfl⟩

/-- Folding the channel-insertion step over a list of dicts never raises
and never touches the guilds table. -/
theorem foldlM_channels_ok (guildId : String) (chans : List Json) (st : Main.Store)
    (h : ∀ ch ∈ chans, ∃ fs, ch = Json.obj fs) :
    ∃ st', chans.foldlM (Main.insertChannelFromJson guildId) st = .ok st'
      ∧ st'.guilds = st.guilds := by
  induction chans generalizing st with
  | nil => exact ⟨st, rfl, rfl⟩
  | cons ch rest ih =>
    obtain ⟨fs, rfl⟩ := h ch (by simp)
    obtain ⟨st1, h1, hg1⟩ := insertChannelFromJson_obj_ok guildId st fs
    obtain ⟨st2, h2, hg2⟩ := ih st1 (fun c hc => h c (by simp [hc]))
    refine ⟨st2, ?_, by rw [hg2, hg1]⟩
    rw [List.foldlM_cons, h1]
    simpa [Bind.bind, Except.bind] using h2

/-- A body satisfying the well-formedness shape is an array of dicts. -/
theorem chanBodyWf_elim (body : Json) (h : Main.chanBodyWf body = true) :
    ∃ chans, body = Json.arr chans ∧ ∀ ch ∈ chans, ∃ fs, ch = Json.obj fs := by
  cases body with
  | arr elems =>
    refine ⟨elems, rfl, fun ch hch => ?_⟩
    simp only [Main.chanBodyWf, List.all_eq_true] at h
    have hch2 := h ch hch
    cases ch <;> simp at hch2
    exact ⟨_, rfl⟩
  | null => simp [Main.chanBodyWf] at h
  | bool b => simp [Main.chanBodyWf] at h
  | num q => simp [Main.chanBodyWf] at h
  | str s => simp [Main.chanBodyWf] at h
  | obj fs => simp [Main.chanBodyWf] at h

/-- A well-formed 200 body is consumed without raising and without touching
the guilds table. -/
theorem insertChannelsFromBody_wf (body : Json) (guildId : String)
    (s : Main.Store) (h : Main.chanBodyWf body = true) :
    ∃ s', Main.insertChannelsFromBody body guildId s = .ok s'
      ∧ s'.guilds = s.guilds := by
  obtain ⟨chans, rfl, hobjs⟩ := chanBodyWf_elim _ h
  obtain ⟨s', hf, hg⟩ := foldlM_channels_ok guildId chans s hobjs
  exact ⟨s', by simpa [Main.insertChannelsFromBody, pyIter, Bind.bind, Except.bind]
    using hf, hg⟩

/-- Handling one guild whose responses are all well-formed 200, 403 or 404
never aborts, only ever shrinks the guilds table, and removes the guild
when its (first) response is 403 or 404. -/
theorem handle_guild_ok (gid : String) (s : Main.Store)
    (resps : List Main.ChanResponse)
    (h : ∀ r ∈ resps, (r.status = 200 ∧ Main.chanBodyWf r.body = true)
        ∨ r.status = 403 ∨ r.status = 404) :
    ∃ s', Main.handle_guild_responses gid s resps = .ok s'
      ∧ (∀ g ∈ s'.guilds, g ∈ s.guilds)
      ∧ (∀ r0, resps.head? = some r0 → r0.status = 403 ∨ r0.status = 404 →
          ∀ g ∈ s'.guilds, g.id ≠ gid) := by
  cases resps with
  | nil => exact ⟨s, rfl, fun g hg => hg, by simp⟩
  | cons r more =>
    rcases h r (by simp) with ⟨h200, hwf⟩ | h403 | h404
    · obtain ⟨s', hok, hg⟩ := insertChannelsFromBody_wf r.body gid s hwf
      refine ⟨s', by simp [Main.handle_guild_responses, h200, hok],
        by rw [hg]; exact fun g hgm => hgm, ?_⟩
      intro r0 hr0 hst g hg2
      have hr0r : r = r0 := by simpa using hr0
      rw [← hr0r, h200] at hst
      omega
    · refine ⟨Main.Database.remove_guild gid s,
        by simp [Main.handle_guild_responses, h403], ?_, ?_⟩
      · exact fun g hg => (List.mem_filter.mp hg).1
      · intro r0 _ _ g hg
        have hkeep := (List.mem_filter.mp hg).2
        simpa using hkeep
    · refine ⟨Main.Database.remove_guild gid s,
        by simp [Main.handle_guild_responses, h404], ?_, ?_⟩
      · exact fun g hg => (List.mem_filter.mp hg).1
      · intro r0 _ _ g hg
        have hkeep := (List.mem_filter.mp hg).2
        simpa using hkeep

/-- Running the channel listing over guild entries whose responses are all
well-formed 200, 403 or 404 never aborts, and every guild answered 403 or
404 is absent from the guilds table afterwards. -/
theorem get_guild_channels_ok (entries : List Main.GuildEntry) (s : Main.Store)
    (h : ∀ e ∈ entries, ∀ r ∈ e.resps,
        (r.status = 200 ∧ Main.chanBodyWf r.body = true)
        ∨ r.status = 403 ∨ r.status = 404) :
    ∃ s', Main.get_guild_channels s entries = .ok s'
      ∧ (∀ g ∈ s'.guilds, g ∈ s.guilds)
      ∧ (∀ e ∈ entries, ∀ r0, e.resps.head? = some r0 →
          r0.status = 403 ∨ r0.status = 404 → ∀ g ∈ s'.guilds, g.id ≠ e.gid) := by
  induction entries generalizing s with
  | nil => exact ⟨s, rfl, fun g hg => hg, by simp⟩
  | cons e rest ih =>
    obtain ⟨s1, h1, hmono1, hdereg1⟩ := handle_guild_ok e.gid s e.resps
      (h e (by simp))
    obtain ⟨s2, h2, hmono2, hdereg2⟩ := ih s1 (fun e2 he2 r hr => h e2 (by simp [he2]) r hr)
    refine ⟨s2, by simp [Main.get_guild_channels, h1, h2],
      fun g hg => hmono1 g (hmono2 g hg), ?_⟩
    intro e2 he2 r0 hr0 hst g hg
    rcases List.mem_cons.mp he2 with rfl | hmem
    · exact hdereg1 r0 hr0 hst g (hmono2 g hg)
    · exact hdereg2 e2 hmem r0 hr0 hst g hg

/-- C5.  A guild whose channel-listing request is answered 403 or 404 is
removed from the store (absent from the scope list afterwards) while the
remaining guilds are processed without aborting, and any status other than
200, 429, 403 and 404 raises and is fatal for the run. -/
theorem c5_channel_listing (entries : List Main.GuildEntry) (s : Main.Store)
    (h : ∀ e ∈ entries, ∀ r ∈ e.resps,
        (r.status = 200 ∧ Main.chanBodyWf r.body = true)
        ∨ r.status = 403 ∨ r.status = 404) :
    (∃ s', Main.get_guild_channels s entries = .ok s' ∧
        ∀ e ∈ entries, ∀ r0, e.resps.head? = some r0 →
          r0.status = 403 ∨ r0.status = 404 →
          ∀ g ∈ Main.Database.get_guilds s', g.id ≠ e.gid) ∧
    (∀ (gid gname : String) (r : Main.ChanResponse)
        (more : List Main.ChanResponse) (rest : List Main.GuildEntry),
      r.status ≠ 200 → r.status ≠ 429 → r.status ≠ 403 → r.status ≠ 404 →
      Main.get_guild_channels s (⟨gid, gname, r :: more⟩ :: rest)
        = .error (.fatalStatus gid r.status)) := by
  constructor
  · obtain ⟨s', hok, _, hdereg⟩ := get_guild_channels_ok entries s h
    refine ⟨s', hok, fun e he r0 hr0 hst g hg => ?_⟩
    exact hdereg e he r0 hr0 hst g (List.mem_filter.mp hg).1
  · intro gid gname r more rest h200 h429 h403 h404
    simp [Main.get_guild_channels, Main.handle_guild_responses,
      h200, h429, h403, h404]

/-- Witness for C5: on a store holding G1 and G2, a run answering G1 with
403 and G2 with a one-channel 200 page succeeds and leaves no guild named
G1 in the scope list; and a lone 500 answer aborts the run. -/
theorem c5_witness :
    (∃ s', Main.get_guild_channels exStoreG1G2 [exEntryG1, exEntryG2] = .ok s' ∧
      ∀ g ∈ Main.Database.get_guilds s', g.id ≠ "G1") ∧
    Main.get_guild_channels exStoreG1G2 [⟨"G3", "Guild Three", [⟨500, .obj []⟩]⟩]
      = .error (.fatalStatus "G3" 500) := by
  constructor
  · obtain ⟨s', hok, hdereg⟩ :=
      (c5_channel_listing [exEntryG1, exEntryG2] exStoreG1G2 (by decide)).1
    exact ⟨s', hok, hdereg exEntryG1 (by simp) ⟨403, .obj []⟩ rfl (Or.inl rfl)⟩
  · exact (c5_channel_listing [] exStoreG1G2 (by simp)).2 "G3" "Guild Three"
      ⟨500, .obj []⟩ [] [] (by decide) (by decide) (by decide) (by decide)

/-- C7 (amended).  A response whose message field resolves (possibly by the
dict default) to a string without the rate-limit sentinel and whose
tabs / media / messages chain resolves through the dict defaults to an
empty results array — in particular any response merely missing those
fields — classifies as exhausted, and the walk of the scope stops with no
further requests, no store change and no error.  (A field present with a
wrong type raises instead; see the counterexample.) -/
theorem c7_empty_results_end_walk (data : Json) (msgv : String) (tv mv : Json)
    (h1 : Json.get data "message" (.str "") = .ok (.str msgv))
    (h2 : strIn "rate limited" msgv = false)
    (h3 : Json.get data "tabs" (.obj []) = .ok tv)
    (h4 : Json.get tv "media" (.obj []) = .ok mv)
    (h5 : Json.get mv "messages" (.arr []) = .ok (.arr [])) :
    classifyBody data = .ok .exhausted ∧
    (∀ (accountId : Json) (guildId : String) (cursor : Json) (now : ℚ)
        (s : Main.Store) (r : SearchResponse) (rest : List SearchResponse),
      r.body = data →
      Main.search_walk accountId guildId cursor now s (r :: rest)
        = ⟨[(now, cursor)], s, none⟩) := by
  have hcls : classifyBody data = .ok .exhausted := by
    simp [classifyBody, h1, h2, h3, h4, h5, pyInStr, pyTruthy,
      Bind.bind, Except.bind, Pure.pure, Except.pure]
  refine ⟨hcls, fun accountId guildId cursor now s r rest hb => ?_⟩
  refine search_walk_exhausted accountId guildId cursor now s r rest ?_
  show classifyBody r.body = .ok .exhausted
  rw [hb]
  exact hcls

/-- Witness for C7 on the body missing all nested media fields: it is
classified exhausted and a walk receiving it stops after that one request
with the store untouched. -/
theorem c7_witness :
    classifyBody exMissingFieldsBody = .ok .exhausted ∧
    Main.search_walk (.str "acct") "G1" .null 0 exStoreG1
        [⟨200, exMissingFieldsBody⟩]
      = ⟨[(0, .null)], exStoreG1, none⟩ := by
  have h := c7_empty_results_end_walk exMissingFieldsBody "" (.obj []) (.obj [])
    rfl rfl rfl rfl rfl
  exact ⟨h.1, h.2 (.str "acct") "G1" .null 0 exStoreG1
    ⟨200, exMissingFieldsBody⟩ [] rfl⟩

/-- Prefix count inequalities are preserved by concatenation. -/
theorem countP_take_le_append {α : Type} (p q : α → Bool) (l1 l2 : List α)
    (h1 : ∀ n, (l1.take n).countP p ≤ (l1.take n).countP q)
    (h2 : ∀ n, (l2.take n).countP p ≤ (l2.take n).countP q) :
    ∀ n, ((l1 ++ l2).take n).countP p ≤ ((l1 ++ l2).take n).countP q := by
  intro n
  rw [List.take_append_eq_append_take, List.countP_append, List.countP_append]
  exact Nat.add_le_add (h1 n) (h2 (n - l1.length))

/-- Every write of the attachment loop is a media insert. -/
theorem attachment_ops_media (atts : List Json) :
    ∀ op ∈ (DumpMessages.attachment_ops atts).1, ∃ fid, op = .insertMedia fid := by
  induction atts with
  | nil => simp [DumpMessages.attachment_ops]
  | cons att rest ih =>
    intro op hop
    unfold DumpMessages.attachment_ops at hop
    split at hop
    · simp at hop
    · rename_i fid url heq
      split at hop
      · rw [List.mem_cons] at hop
        rcases hop with rfl | hop
        · exact ⟨_, rfl⟩
        · exact ih op hop
      · exact ih op hop

/-- Shape of the write sequence of one message: empty (the field extraction
raised) or the message row, the user row and the cursor update followed
only by channel and media writes. -/
theorem process_message_ops_shape (m : Json) (g : String) (ts : Json) :
    (DumpMessages.process_message_ops m g ts).1 = [] ∨
    ∃ mid uid tail, (DumpMessages.process_message_ops m g ts).1
        = .insertMessage mid :: .insertUser uid :: .updateCursor ts 1 :: tail
      ∧ (∀ op ∈ tail, (∃ cid, op = DumpMessages.DbOp.insertChannel cid)
          ∨ (∃ fid, op = DumpMessages.DbOp.insertMedia fid)) := by
  unfold DumpMessages.process_message_ops
  cases hext : DumpMessages.extractMessageFields m with
  | error e => exact Or.inl rfl
  | ok f =>
    right
    simp only [DumpMessages.storeMessagesFlag, if_true]
    cases hit : pyIter f.attachments with
    | error e =>
      refine ⟨f.message_id, f.user_id,
        (if g == "@me" then [DumpMessages.DbOp.insertChannel f.channel_id] else []),
        by simp, ?_⟩
      intro op hop
      split at hop
      · simp at hop
        exact Or.inl ⟨_, hop⟩
      · simp at hop
    | ok attList =>
      refine ⟨f.message_id, f.user_id,
        (if g == "@me" then [DumpMessages.DbOp.insertChannel f.channel_id] else [])
          ++ (DumpMessages.attachment_ops attList).1, by simp, ?_⟩
      intro op hop
      rw [List.mem_append] at hop
      rcases hop with hop | hop
      · split at hop
        · simp at hop
          exact Or.inl ⟨_, hop⟩
        · simp at hop
      · exact Or.inr (attachment_ops_media attList op hop)

/-- Within the writes of one message, no prefix contains more cursor
updates than message rows. -/
theorem process_message_ops_counts (m : Json) (g : String) (ts : Json) :
    ∀ n, (((DumpMessages.process_message_ops m g ts).1.take n).countP
        DumpMessages.DbOp.isCursorWrite)
      ≤ (((DumpMessages.process_message_ops m g ts).1.take n).countP
        DumpMessages.DbOp.isMessageRow) := by
  rcases process_message_ops_shape m g ts with hnil | ⟨mid, uid, tail, hshape, htail⟩
  · intro n
    rw [hnil]
    simp
  · intro n
    rw [hshape]
    have htailc : tail.countP DumpMessages.DbOp.isCursorWrite = 0 := by
      rw [List.countP_eq_zero]
      intro op hop
      rcases htail op hop with ⟨cid, rfl⟩ | ⟨fid, rfl⟩ <;>
        simp [DumpMessages.DbOp.isCursorWrite]
    cases n with
    | zero => simp
    | succ n =>
      have hc2 : (List.take n (DumpMessages.DbOp.insertUser uid ::
          DumpMessages.DbOp.updateCursor ts 1 :: tail)).countP
            DumpMessages.DbOp.isCursorWrite ≤ 1 := by
        have hsub := List.Sublist.countP_le DumpMessages.DbOp.isCursorWrite
          (List.take_sublist n (DumpMessages.DbOp.insertUser uid ::
            DumpMessages.DbOp.updateCursor ts 1 :: tail))
        have hwhole : (DumpMessages.DbOp.insertUser uid ::
            DumpMessages.DbOp.updateCursor ts 1 :: tail).countP
              DumpMessages.DbOp.isCursorWrite = 1 := by
          simp [List.countP_cons, htailc, DumpMessages.DbOp.isCursorWrite]
        omega
      rw [List.take_succ_cons, List.countP_cons, List.countP_cons]
      simp only [DumpMessages.DbOp.isCursorWrite, DumpMessages.DbOp.isMessageRow,
        Bool.false_eq_true, if_false, if_true]
      omega

/-- Every cursor update among the writes of one message stores the page
search timestamp under the message-cursor discriminator. -/
theorem process_message_ops_cursor_payload (m : Json) (g : String) (ts : Json) :
    ∀ op ∈ (DumpMessages.process_message_ops m g ts).1,
      DumpMessages.DbOp.isCursorWrite op = true →
        op = DumpMessages.DbOp.updateCursor ts 1 := by
  rcases process_message_ops_shape m g ts with hnil | ⟨mid, uid, tail, hshape, htail⟩
  · rw [hnil]
    simp
  · rw [hshape]
    intro op hop hcw
    rcases hop with _ | ⟨_, hop⟩
    · simp [DumpMessages.DbOp.isCursorWrite] at hcw
    rcases hop with _ | ⟨_, hop⟩
    · simp [DumpMessages.DbOp.isCursorWrite] at hcw
    rcases hop with _ | ⟨_, hop⟩
    · rfl
    rcases htail op hop with ⟨cid, rfl⟩ | ⟨fid, rfl⟩ <;>
      simp [DumpMessages.DbOp.isCursorWrite] at hcw

/-- Within the writes of one page (item list form), no prefix contains more
cursor updates than message rows. -/
theorem items_ops_counts (g : String) (ts : Json) (items : List Json) :
    ∀ n, (((DumpMessages.items_ops g ts items).1.take n).countP
        DumpMessages.DbOp.isCursorWrite)
      ≤ (((DumpMessages.items_ops g ts items).1.take n).countP
        DumpMessages.DbOp.isMessageRow) := by
  induction items with
  | nil =>
    intro n
    simp [DumpMessages.items_ops]
  | cons item rest ih =>
    intro n
    unfold DumpMessages.items_ops
    split
    · simp
    · rename_i m hsub
      split
      · rename_i ops ex hblk
        have hpre := process_message_ops_counts m g ts n
        rw [hblk] at hpre
        exact hpre
      · rename_i ops hblk
        have hblock : ∀ k, ((ops.take k).countP DumpMessages.DbOp.isCursorWrite)
            ≤ ((ops.take k).countP DumpMessages.DbOp.isMessageRow) := by
          intro k
          have hpre := process_message_ops_counts m g ts k
          rw [hblk] at hpre
          exact hpre
        exact countP_take_le_append DumpMessages.DbOp.isCursorWrite
          DumpMessages.DbOp.isMessageRow ops
          (DumpMessages.items_ops g ts rest).1 hblock ih n

/-- Every cursor update among the writes of one page (item list form)
stores the page search timestamp. -/
theorem items_ops_cursor_payload (g : String) (ts : Json) (items : List Json) :
    ∀ op ∈ (DumpMessages.items_ops g ts items).1,
      DumpMessages.DbOp.isCursorWrite op = true →
        op = DumpMessages.DbOp.updateCursor ts 1 := by
  induction items with
  | nil => simp [DumpMessages.items_ops]
  | cons item rest ih =>
    intro op hop hcw
    unfold DumpMessages.items_ops at hop
    split at hop
    · simp at hop
    · rename_i m hsub
      split at hop
      · rename_i ops ex hblk
        have := process_message_ops_cursor_payload m g ts op
        rw [hblk] at this
        exact this hop hcw
      · rename_i ops hblk
        have hop2 : op ∈ ops ++ (DumpMessages.items_ops g ts rest).1 := hop
        rcases List.mem_append.mp hop2 with hmem | hmem
        · have := process_message_ops_cursor_payload m g ts op
          rw [hblk] at this
          exact this hmem hcw
        · exact ih op hmem hcw

/-- Within the writes of one page, no prefix contains more cursor updates
than message rows. -/
theorem page_ops_counts (messages : Json) (g : String) (ts : Json) :
    ∀ n, (((DumpMessages.page_ops messages g ts).1.take n).countP
        DumpMessages.DbOp.isCursorWrite)
      ≤ (((DumpMessages.page_ops messages g ts).1.take n).countP
        DumpMessages.DbOp.isMessageRow) := by
  intro n
  unfold DumpMessages.page_ops
  cases hit : pyIter messages with
  | error e => simp
  | ok items => exact items_ops_counts g ts items n

/-- Every cursor update among the writes of one page stores the page
search timestamp. -/
theorem page_ops_cursor_payload (messages : Json) (g : String) (ts : Json) :
    ∀ op ∈ (DumpMessages.page_ops messages g ts).1,
      DumpMessages.DbOp.isCursorWrite op = true →
        op = DumpMessages.DbOp.updateCursor ts 1 := by
  intro op hop hcw
  unfold DumpMessages.page_ops at hop
  cases hit : pyIter messages with
  | error e =>
    rw [hit] at hop
    simp at hop
  | ok items =>
    rw [hit] at hop
    exact items_ops_cursor_payload g ts items op hop hcw

/-- C2 (amended).  While a page is consumed, the resume cursor is advanced
once per message — to the cursor value yielded with the page — immediately
after that message row is persisted but before the media of the message:
at every interruption point the number of cursor advances never exceeds the
number of message rows already persisted, and every cursor advance stores
the page cursor; media of the message being processed (index 3 of the
counterexample trace) may still be unpersisted when the cursor already
holds the page value, so resuming can skip the rest of that page. -/
theorem c2_cursor_advance_per_message (messages : Json) (guildId : String)
    (ts : Json) :
    (∀ n, (((DumpMessages.page_ops messages guildId ts).1.take n).countP
        DumpMessages.DbOp.isCursorWrite)
      ≤ (((DumpMessages.page_ops messages guildId ts).1.take n).countP
        DumpMessages.DbOp.isMessageRow)) ∧
    (∀ op ∈ (DumpMessages.page_ops messages guildId ts).1,
      DumpMessages.DbOp.isCursorWrite op = true →
        op = DumpMessages.DbOp.updateCursor ts 1) :=
  ⟨page_ops_counts messages guildId ts, page_ops_cursor_payload messages guildId ts⟩

/-- Witness for C2 on the concrete one-message page: the three-write prefix
holds one cursor advance and one message row, and the cursor advance at
index 2 stores the page cursor t2. -/
theorem c2_witness :
    (((DumpMessages.page_ops exDmPage "G1" (.str "t2")).1.take 3).countP
        DumpMessages.DbOp.isCursorWrite)
      ≤ (((DumpMessages.page_ops exDmPage "G1" (.str "t2")).1.take 3).countP
        DumpMessages.DbOp.isMessageRow) ∧
    DumpMessages.DbOp.updateCursor (.str "t2") 1
      = DumpMessages.DbOp.updateCursor (.str "t2") 1 := by
  refine ⟨(c2_cursor_advance_per_message exDmPage "G1" (.str "t2")).1 3, ?_⟩
  refine (c2_cursor_advance_per_message exDmPage "G1" (.str "t2")).2
    (DumpMessages.DbOp.updateCursor (.str "t2") 1) ?_ rfl
  show DumpMessages.DbOp.updateCursor (.str "t2") 1 ∈
    [DumpMessages.DbOp.insertMessage (.str "m9"),
     DumpMessages.DbOp.insertUser (.str "u9"),
     DumpMessages.DbOp.updateCursor (.str "t2") 1,
     DumpMessages.DbOp.insertMedia (.str "f9")]
  exact List.mem_cons_of_mem _ (List.mem_cons_of_mem _ (List.mem_cons_self _ _))

/-- Lexicographic comparison is reflexive. -/
theorem charsLe_refl : ∀ as : List Char, charsLe as as = true
  | [] => rfl
  | a :: as => by simp [charsLe, Nat.lt_irrefl, charsLe_refl as]

/-- Lexicographic comparison is transitive. -/
theorem charsLe_trans : ∀ as bs cs : List Char,
    charsLe as bs = true → charsLe bs cs = true → charsLe as cs = true
  | [], _, _ => fun _ _ => rfl
  | a :: as, [], cs => fun h1 _ => by simp [charsLe] at h1
  | a :: as, b :: bs, [] => fun _ h2 => by simp [charsLe] at h2
  | a :: as, b :: bs, c :: cs => fun h1 h2 => by
    simp only [charsLe] at h1 h2 ⊢
    by_cases hab : a.toNat < b.toNat
    · by_cases hbc : b.toNat < c.toNat
      · simp [Nat.lt_trans hab hbc]
      · by_cases hcb : c.toNat < b.toNat
        · simp [hbc, hcb] at h2
        · have hac : a.toNat < c.toNat := by omega
          simp [hac]
    · by_cases hba : b.toNat < a.toNat
      · simp [hab, hba] at h1
      · by_cases hbc : b.toNat < c.toNat
        · have hac : a.toNat < c.toNat := by omega
          simp [hac]
        · by_cases hcb : c.toNat < b.toNat
          · simp [hbc, hcb] at h2
          · have hac : ¬ a.toNat < c.toNat := by omega
            have hca : ¬ c.toNat < a.toNat := by omega
            simp only [hab, hba, if_false, if_neg] at h1
            simp only [hbc, hcb, if_false, if_neg] at h2
            simp only [hac, hca, if_false, if_neg]
            exact charsLe_trans as bs cs h1 h2

/-- Timestamp comparison is reflexive. -/
theorem tsLe_refl (s : String) : tsLe s s = true :=
  charsLe_refl s.data

/-- Timestamp comparison is transitive. -/
theorem tsLe_trans (a b c : String) (h1 : tsLe a b = true) (h2 : tsLe b c = true) :
    tsLe a c = true :=
  charsLe_trans a.data b.data c.data h1 h2

/-- A non-decreasing list is pairwise ordered. -/
theorem ascB_pairwise : ∀ l : List String, ascB l = true →
    l.Pairwise (fun x y => tsLe x y = true)
  | [] => fun _ => List.Pairwise.nil
  | [a] => fun _ => by simp
  | a :: b :: rest => fun h => by
    have h2 : tsLe a b = true ∧ ascB (b :: rest) = true := by
      simpa [ascB, Bool.and_eq_true] using h
    have htail := ascB_pairwise (b :: rest) h2.2
    refine List.pairwise_cons.mpr ⟨fun y hy => ?_, htail⟩
    rcases List.mem_cons.mp hy with rfl | hmem
    · exact h2.1
    · exact tsLe_trans a b y h2.1 ((List.pairwise_cons.mp htail).1 y hmem)

/-- A pairwise ordered list is non-decreasing. -/
theorem pairwise_ascB : ∀ l : List String,
    l.Pairwise (fun x y => tsLe x y = true) → ascB l = true
  | [] => fun _ => rfl
  | [_] => fun _ => rfl
  | a :: b :: rest => fun h => by
    have hcons := List.pairwise_cons.mp h
    have h1 : tsLe a b = true := hcons.1 b (List.mem_cons_self b rest)
    simpa [ascB, Bool.and_eq_true] using
      ⟨h1, pairwise_ascB (b :: rest) hcons.2⟩

/-- A list whose elements are all one timestamp is pairwise ordered. -/
theorem pairwise_const {l : List String} {c : String} (h : ∀ x ∈ l, x = c)
    (hc : tsLe c c = true) : l.Pairwise (fun a b => tsLe a b = true) := by
  induction l with
  | nil => exact List.Pairwise.nil
  | cons x xs ih =>
    refine List.pairwise_cons.mpr
      ⟨fun y hy => ?_, ih (fun y hy => h y (List.mem_cons_of_mem x hy))⟩
    rw [h x (List.mem_cons_self x xs), h y (List.mem_cons_of_mem x hy)]
    exact hc

/-- Every cursor value written while consuming one page equals the cursor
yielded with that page. -/
theorem page_cursor_writes_const (messages : Json) (g : String) (c : String) :
    ∀ x ∈ DumpMessages.page_cursor_writes messages g c, x = c := by
  intro x hx
  unfold DumpMessages.page_cursor_writes at hx
  obtain ⟨op, hop, hsome⟩ := List.mem_filterMap.mp hx
  obtain ⟨k, rfl⟩ : ∃ k, op = DumpMessages.DbOp.updateCursor (.str x) k := by
    cases op with
    | insertMessage a => simp [DumpMessages.cursorWritten] at hsome
    | insertUser a => simp [DumpMessages.cursorWritten] at hsome
    | insertChannel a => simp [DumpMessages.cursorWritten] at hsome
    | insertMedia a => simp [DumpMessages.cursorWritten] at hsome
    | updateCursor ts k =>
      cases ts <;> simp [DumpMessages.cursorWritten] at hsome
      exact ⟨k, by simp [hsome]⟩
  have hpay := page_ops_cursor_payload messages g (.str c)
    (DumpMessages.DbOp.updateCursor (.str x) k) hop rfl
  injection hpay with h1 h2
  injection h1 with h3

/-- C3.  Without the deep-scrape directive the stored resume point is used
as is (it resets to null only under deep-scrape), and provided the pages of
a run carry non-decreasing cursor timestamps, the sequence of cursor values
written to the scope resume cursor over the run is non-decreasing. -/
theorem c3_cursor_monotone (guildId : String) (stored : Json)
    (pages : List (Json × String))
    (hasc : ascB (pages.map Prod.snd) = true) :
    ascB (DumpMessages.run_cursor_writes guildId pages) = true ∧
    DumpMessages.start_timestamp false stored = stored ∧
    DumpMessages.start_timestamp true stored = .null := by
  refine ⟨?_, rfl, rfl⟩
  apply pairwise_ascB
  unfold DumpMessages.run_cursor_writes
  rw [List.pairwise_flatten]
  constructor
  · intro l hl
    obtain ⟨p, hp, rfl⟩ := List.mem_map.mp hl
    exact pairwise_const (page_cursor_writes_const p.1 guildId p.2) (tsLe_refl p.2)
  · rw [List.pairwise_map]
    have hpw : pages.Pairwise (fun p1 p2 => tsLe p1.2 p2.2 = true) :=
      List.pairwise_map.mp (ascB_pairwise (pages.map Prod.snd) hasc)
    exact hpw.imp (fun {p1 p2} h12 x hx y hy => by
      rw [page_cursor_writes_const p1.1 guildId p1.2 x hx,
        page_cursor_writes_const p2.1 guildId p2.2 y hy]
      exact h12)

/-- Witness for C3 on a concrete two-page run with ascending cursors: the
written cursor sequence is non-decreasing, and the resume point is kept
without deep-scrape and cleared with it. -/
theorem c3_witness :
    ascB (DumpMessages.run_cursor_writes "G1"
      [(exDmPage, "2024-02-01T00:00:01"), (exDmPage, "2024-02-02T00:00:00")])
        = true ∧
    DumpMessages.start_timestamp false (.str "2024-01-15T00:00:00")
      = .str "2024-01-15T00:00:00" ∧
    DumpMessages.start_timestamp true (.str "2024-01-15T00:00:00") = .null :=
  c3_cursor_monotone "G1" (.str "2024-01-15T00:00:00")
    [(exDmPage, "2024-02-01T00:00:01"), (exDmPage, "2024-02-02T00:00:00")]
    (by decide)

end DiscordDumper

